import Mathlib

/-!
Verification development for the sockit_spi repository.

The two source files are embedded shallowly:

* `src/src/spi_tb.cpp` — the Verilator test harness.  Its global signal
  record (`Vspi` inputs/outputs plus the globals `n` and `t`) becomes
  `TopSig`/`TbState`; the helpers `clk_tgl`, `IOWR` and `IORD` and the
  body of `main` become the Lean functions of the same names.  The
  simulated device (`Vspi`, generated from RTL that is not part of the
  two files) is kept abstract: every harness function is parameterised
  over a device state type `S`, an evaluation function
  `step : S → TopSig → S` (one call per `top->eval()`) and a read-data
  output `rdt : S → Nat` (the value of `top->reg_rdt` after an `eval`).

* `src/inc/sockit_spi_regs.h` — the register-map constants.

Where a claim is decided by the missing RTL, a device model is built
from the specification (see `Phase`, `SpiDev` below), clearly marked
`Modelled from the spec:`.
-/

/-- Signals of the simulated top-level module `Vspi` that the test
harness touches: clocks, resets, and the register bus
(write-enable, read-enable, address, write-data, read-data).
All are machine integers in the source; the harness only ever stores
the values 0/1 in the one-bit signals, so `Nat` is used throughout. -/
structure TopSig where
  clk_cpu : Nat
  clk_spi : Nat
  rst : Nat
  rst_cpu : Nat
  rst_spi : Nat
  reg_wen : Nat
  reg_ren : Nat
  reg_adr : Nat
  reg_wdt : Nat
  reg_rdt : Nat
deriving DecidableEq

/-- Whole-harness state: the globals `n` (VCD timestamp counter) and
`t` (cycle counter) from `spi_tb.cpp`, the top-level signals, and the
abstract device state (the `Vspi` instance). -/
structure TbState (S : Type) where
  n : Nat
  t : Nat
  top : TopSig
  dev : S
deriving DecidableEq

/-- One observed register-bus access: direction, address, data
(write-data for writes, returned read-data for reads) and the value of
`rst_cpu` at the time of the access. -/
structure BusEvent where
  isWrite : Bool
  adr : Nat
  data : Nat
  rstCpu : Nat
deriving DecidableEq

variable {S : Type} (step : S → TopSig → S) (rdt : S → Nat)

/-- The low half-cycle assignment in `clk_tgl`:
`top->clk_cpu = 0; top->clk_spi = 0;`. -/
def lowPhaseTop (top : TopSig) : TopSig :=
  { top with clk_cpu := 0, clk_spi := 0 }

/-- The high half-cycle assignment in `clk_tgl`:
`top->clk_cpu = 1; top->clk_spi = 1;`. -/
def highPhaseTop (top : TopSig) : TopSig :=
  { top with clk_cpu := 1, clk_spi := 1 }

/-- `clk_tgl` from `spi_tb.cpp`: dump, drive both clocks low, `eval`,
dump, drive both clocks high, `eval`, increment `t`.  Each `dump(n++)`
increments `n`; each `eval` is one call of `step`, after which
`reg_rdt` holds the device's read-data output. -/
def clk_tgl (s : TbState S) : TbState S :=
  let t1 := lowPhaseTop s.top
  let d1 := step s.dev t1
  let t1r := { t1 with reg_rdt := rdt d1 }
  let t2 := highPhaseTop t1r
  let d2 := step d1 t2
  let t2r := { t2 with reg_rdt := rdt d2 }
  { n := s.n + 2, t := s.t + 1, top := t2r, dev := d2 }

/-- `IOWR` from `spi_tb.cpp`: raise `reg_wen`, set address and
write-data, toggle the clock once, drop `reg_wen`. -/
def IOWR (adr wdt : Nat) (s : TbState S) : TbState S :=
  let s1 := clk_tgl step rdt
    { s with top := { s.top with reg_wen := 1, reg_adr := adr, reg_wdt := wdt } }
  { s1 with top := { s1.top with reg_wen := 0 } }

/-- `IORD` from `spi_tb.cpp`: raise `reg_ren`, set the address, toggle
the clock once, sample `reg_rdt`, drop `reg_ren`, return the sample. -/
def IORD (adr : Nat) (s : TbState S) : Nat × TbState S :=
  let s1 := clk_tgl step rdt
    { s with top := { s.top with reg_ren := 1, reg_adr := adr } }
  (s1.top.reg_rdt, { s1 with top := { s1.top with reg_ren := 0 } })

/-- The busy-poll loop of `main`: `while (IORD (1) & 0x0000c000);`,
with explicit fuel (the C loop has none) and an event trace of the
reads it performs.  `none` means the fuel ran out before a read
returned a value whose masked bits were zero. -/
def pollLoop : Nat → TbState S → Option (List BusEvent × TbState S)
  | 0, _ => none
  | fuel + 1, s =>
    let p := IORD step rdt 1 s
    let e : BusEvent := { isWrite := false, adr := 1, data := p.1, rstCpu := p.2.top.rst_cpu }
    if p.1 &&& 0xc000 = 0 then some ([e], p.2)
    else
      match pollLoop fuel p.2 with
      | none => none
      | some q => some (e :: q.1, q.2)

/-- Top-level signal values after `main`'s initialisation block:
`clk_cpu = 1; rst_cpu = 1; clk_spi = 1; rst_spi = 1;` on a
zero-initialised `Vspi` instance. -/
def topInit : TopSig :=
  { clk_cpu := 1, clk_spi := 1, rst := 0, rst_cpu := 1, rst_spi := 1,
    reg_wen := 0, reg_ren := 0, reg_adr := 0, reg_wdt := 0, reg_rdt := 0 }

/-- Harness state right after `main`'s initialisation, before any
clock toggle. -/
def mainInit (d0 : S) : TbState S :=
  { n := 0, t := 0, top := topInit, dev := d0 }

/-- State after the first `for (i=0; i<2; i++) clk_tgl ();`. -/
def mainAfterWarmup (d0 : S) : TbState S :=
  clk_tgl step rdt (clk_tgl step rdt (mainInit d0))

/-- State after the reset-removal assignments of `main`:
`top->rst = 0; top->rst_spi = 0;` — and nothing else. -/
def mainResetRemoved (d0 : S) : TbState S :=
  let s := mainAfterWarmup step rdt d0
  { s with top := { s.top with rst := 0, rst_spi := 0 } }

/-- State after the second warm-up loop, just before the first
register access of `main`. -/
def mainPreAccess (d0 : S) : TbState S :=
  clk_tgl step rdt (clk_tgl step rdt (mainResetRemoved step rdt d0))

/-- The bus event recorded for an `IOWR` call, tagged with the
`rst_cpu` value in force when it completed. -/
def wev (adr data : Nat) (s : TbState S) : BusEvent :=
  { isWrite := true, adr := adr, data := data, rstCpu := s.top.rst_cpu }

/-- The register-access portion of `main`, faithful to the source:
`IOWR (2, 0x01ff0f84); IOWR (0, 0x0b5a0000); IOWR (1, 0x003f1012);
while (IORD (1) & 0x0000c000); rdt = IORD (0);` followed by four dummy
clock periods.  Returns the access trace, the final `rdt` value and
the final harness state; `none` when the poll fuel runs out. -/
def mainRun (d0 : S) (fuel : Nat) : Option (List BusEvent × Nat × TbState S) :=
  let s4 := IOWR step rdt 2 0x01ff0f84 (mainPreAccess step rdt d0)
  let s5 := IOWR step rdt 0 0x0b5a0000 s4
  let s6 := IOWR step rdt 1 0x003f1012 s5
  match pollLoop step rdt fuel s6 with
  | none => none
  | some q =>
    let p := IORD step rdt 0 q.2
    let sf := clk_tgl step rdt (clk_tgl step rdt (clk_tgl step rdt (clk_tgl step rdt p.2)))
    some (wev 2 0x01ff0f84 s4 :: wev 0 0x0b5a0000 s5 :: wev 1 0x003f1012 s6 ::
            (q.1 ++ [{ isWrite := false, adr := 0, data := p.1, rstCpu := p.2.top.rst_cpu }]),
          p.1, sf)

/-- The observable part of `mainRun`: the access trace and the value
read back from the data register. -/
def mainEvents (d0 : S) (fuel : Nat) : Option (List BusEvent × Nat) :=
  (mainRun step rdt d0 fuel).map (fun x => (x.1, x.2.1))

/-- `SOCKIT_SPI_DAT_REG` from `sockit_spi_regs.h`. -/
def SOCKIT_SPI_DAT_REG : Nat := 0

/-- `SOCKIT_SPI_CTL_REG` from `sockit_spi_regs.h`. -/
def SOCKIT_SPI_CTL_REG : Nat := 1

/-- `SOCKIT_SPI_CFG_REG` from `sockit_spi_regs.h`. -/
def SOCKIT_SPI_CFG_REG : Nat := 3

/-- `SOCKIT_SPI_XIP_REG` from `sockit_spi_regs.h`. -/
def SOCKIT_SPI_XIP_REG : Nat := 3

/-- The register-offset constants defined by `sockit_spi_regs.h`, in
order of appearance. -/
def headerRegConstants : List Nat :=
  [SOCKIT_SPI_DAT_REG, SOCKIT_SPI_CTL_REG, SOCKIT_SPI_CFG_REG, SOCKIT_SPI_XIP_REG]

/-- A trivial device: ignores its inputs and always answers 0 on
`reg_rdt`.  Used to evaluate the harness on a concrete instance. -/
def unitStep : Unit → TopSig → Unit := fun _ _ => ()

/-- Read-data output of the trivial device. -/
def unitRdt : Unit → Nat := fun _ => 0

/-- Modelled from the spec: the Transfer Engine phases
`IDLE → LOADING → SHIFTING → DONE → IDLE` of spec section 4.2.  The RTL
of the device (`Vspi`) is not among the source files, so the engine is
reconstructed from the specification.  `LOADING` is zero-duration in
logical terms and is folded into the transition that arms a transfer;
`shifting r` carries the number of remaining shift cycles. -/
inductive Phase where
  | idle : Phase
  | shifting : Nat → Phase
  | done : Phase
deriving DecidableEq

/-- Modelled from the spec: the wire mode — 1 (single), 2 (dual) or 4
(quad) parallel data lines during a shift phase. -/
inductive WireMode where
  | single : WireMode
  | dual : WireMode
  | quad : WireMode
deriving DecidableEq

/-- Modelled from the spec: serial clock cycles needed per byte — 8
bits per byte divided by the number of parallel data lines. -/
def cyclesPerByte : WireMode → Nat
  | WireMode.single => 8
  | WireMode.dual => 4
  | WireMode.quad => 2

/-- Modelled from the spec: the busy flag is asserted for the entire
`LOADING..SHIFTING` span and is 0 in `IDLE` and after `DONE`. -/
def busyPhase : Phase → Bool
  | Phase.shifting _ => true
  | _ => false

/-- Modelled from the spec: the CTRL/STAT read value — the busy flag
occupies the high-order status bits at mask `0xc000`; the other status
bits are left 0. -/
def statusOf (p : Phase) : Nat := if busyPhase p then 0xc000 else 0

/-- Modelled from the spec: one clock cycle of the engine when no new
transaction is armed — `SHIFTING` counts down, `shifting 0` advances to
`DONE`, and `DONE` returns to `IDLE` on the next clock edge. -/
def engineStep : Phase → Phase
  | Phase.idle => Phase.idle
  | Phase.shifting 0 => Phase.done
  | Phase.shifting (r + 1) => Phase.shifting r
  | Phase.done => Phase.idle

/-- Modelled from the spec: the device's register-file state — the
engine phase, the DATA and CONFIG registers, and the latched bus
address feeding the combinational read mux. -/
structure SpiDev where
  phase : Phase
  dat : Nat
  cfg : Nat
  adr : Nat
deriving DecidableEq

variable (decode : Nat → Option (WireMode × Nat × Nat)) (inData : Nat)

/-- Modelled from the spec: the rising-edge update of the device.
Address decode is exact-match: a write to 0 stores into DATA, a write
to 1 with the start strobe set while the engine is idle arms a
transfer of `(out-count + in-count) × cycles-per-byte(wire-mode)`
cycles (a start while busy is ignored, per spec section 4.1), a write
to 3 stores into CONFIG, and a write to any other offset — including
the reserved offset 2 — is a no-op.  On completing the shift the
inbound bytes (`inData`, left abstract) are latched into DATA.  The
exact bit layout of the CONTROL word is an open question in the spec
(section 9), so its decoding is the abstract parameter `decode`,
returning `some (wire-mode, out-count, in-count)` when the start
strobe is set. -/
def devRising (s0 : SpiDev) (top : TopSig) : SpiDev :=
  let s1 : SpiDev :=
    { s0 with phase := engineStep s0.phase,
              dat := if s0.phase = Phase.shifting 0 then inData else s0.dat }
  if top.reg_wen = 1 then
    if top.reg_adr = 0 then { s1 with dat := top.reg_wdt }
    else if top.reg_adr = 1 then
      match s0.phase, decode top.reg_wdt with
      | Phase.idle, some f =>
          { s1 with phase := Phase.shifting ((f.2.1 + f.2.2) * cyclesPerByte f.1) }
      | _, _ => s1
    else if top.reg_adr = 3 then { s1 with cfg := top.reg_wdt }
    else s1
  else s1

/-- Modelled from the spec: one `eval` call of the device.  The bus
address is latched combinationally; sequential state advances on the
high phase of the clock (the harness calls `eval` exactly once per
cycle with the clock high). -/
def devStep (s : SpiDev) (top : TopSig) : SpiDev :=
  let s1 : SpiDev := { s with adr := top.reg_adr }
  if top.clk_cpu = 1 then devRising decode inData s1 top else s1

/-- Modelled from the spec: the combinational read mux — DATA at
offset 0, live status at offset 1, CONFIG at offset 3, and the
reserved offset 2 (like every undefined offset) reads as 0. -/
def devRdt (s : SpiDev) : Nat :=
  if s.adr = 0 then s.dat
  else if s.adr = 1 then statusOf s.phase
  else if s.adr = 3 then s.cfg
  else 0

/-- Recognises a write to the CONFIG register offset in a trace
event. -/
def isCfgWrite (e : BusEvent) : Bool :=
  e.isWrite && (e.adr == SOCKIT_SPI_CFG_REG)

/-- A concrete spec-modelled device state: engine idle, registers
zero. -/
def spiDev0 : SpiDev :=
  { phase := Phase.idle, dat := 0, cfg := 0, adr := 0 }

/-- A concrete harness state over the spec-modelled device. -/
def tb0 : TbState SpiDev :=
  { n := 0, t := 0, top := topInit, dev := spiDev0 }

/-- A concrete CONTROL-word decoder: every write is a start strobe for
a single-wire transaction with zero byte counts. -/
def decTrivial : Nat → Option (WireMode × Nat × Nat) :=
  fun _ => some (WireMode.single, 0, 0)

/-- C2: the register address constants of `sockit_spi_regs.h` match
the specified map — DATA at word offset 0, CONTROL/STATUS at 1, CONFIG
at 3 (XIP likewise at 3), and no register constant is defined for the
reserved offset 2. -/
theorem c2_register_map :
    SOCKIT_SPI_DAT_REG = 0 ∧ SOCKIT_SPI_CTL_REG = 1 ∧
    SOCKIT_SPI_CFG_REG = 3 ∧ SOCKIT_SPI_XIP_REG = 3 ∧
    2 ∉ headerRegConstants := by
  refine ⟨rfl, rfl, rfl, rfl, ?_⟩
  decide

/-- C4: the XIP register constant equals the CONFIG register constant
(both word offset 3), so a harness write or read issued at the XIP
offset is literally the same operation as one issued at the CONFIG
offset. -/
theorem c4_xip_aliases_cfg :
    SOCKIT_SPI_XIP_REG = SOCKIT_SPI_CFG_REG ∧ SOCKIT_SPI_XIP_REG = 3 ∧
    (∀ (T : Type) (st : T → TopSig → T) (rd : T → Nat) (d : Nat) (s : TbState T),
      IOWR st rd SOCKIT_SPI_XIP_REG d s = IOWR st rd SOCKIT_SPI_CFG_REG d s ∧
      IORD st rd SOCKIT_SPI_XIP_REG s = IORD st rd SOCKIT_SPI_CFG_REG s) :=
  ⟨rfl, rfl, fun _ _ _ _ _ => ⟨rfl, rfl⟩⟩

/-- C5: each bus primitive takes exactly one clock toggle — `IOWR`
increments the cycle counter `t` by exactly 1, and `IORD` increments
`t` by exactly 1 and returns the `reg_rdt` value sampled after that
single clock edge (the device's read-data output in the final state). -/
theorem c5_primitive_single_cycle (T : Type) (st : T → TopSig → T) (rd : T → Nat)
    (adr wdt : Nat) (s : TbState T) :
    (IOWR st rd adr wdt s).t = s.t + 1 ∧
    (IORD st rd adr s).2.t = s.t + 1 ∧
    (IORD st rd adr s).1 = (IORD st rd adr s).2.top.reg_rdt ∧
    (IORD st rd adr s).1 = rd ((IORD st rd adr s).2.dev) :=
  ⟨rfl, rfl, rfl, rfl⟩

/-- C9: `clk_tgl` drives the two clocks in lockstep — the low phase
assigns 0 to both `clk_cpu` and `clk_spi`, the high phase assigns 1 to
both, the device is evaluated once in each phase in that order, the
call returns with both clocks equal to 1, and it increments the VCD
timestamp counter `n` by exactly 2 and the cycle counter `t` by
exactly 1. -/
theorem c9_clocks_lockstep (T : Type) (st : T → TopSig → T) (rd : T → Nat)
    (s : TbState T) (u : TopSig) :
    (lowPhaseTop u).clk_cpu = 0 ∧ (lowPhaseTop u).clk_spi = 0 ∧
    (highPhaseTop u).clk_cpu = 1 ∧ (highPhaseTop u).clk_spi = 1 ∧
    (clk_tgl st rd s).top.clk_cpu = 1 ∧ (clk_tgl st rd s).top.clk_spi = 1 ∧
    (clk_tgl st rd s).dev =
      st (st s.dev (lowPhaseTop s.top))
        (highPhaseTop { lowPhaseTop s.top with reg_rdt := rd (st s.dev (lowPhaseTop s.top)) }) ∧
    (clk_tgl st rd s).n = s.n + 2 ∧ (clk_tgl st rd s).t = s.t + 1 :=
  ⟨rfl, rfl, rfl, rfl, rfl, rfl, rfl, rfl, rfl⟩

/-- C10: the bus strobes are deasserted between primitives and the two
primitives are mutually exclusive — `IOWR` returns with `reg_wen = 0`
and leaves `reg_ren` untouched; `IORD` returns with `reg_ren = 0` and
leaves `reg_wen` and `reg_wdt` untouched; `clk_tgl` itself never
changes either strobe. -/
theorem c10_strobe_discipline (T : Type) (st : T → TopSig → T) (rd : T → Nat)
    (adr wdt a2 : Nat) (s : TbState T) :
    (IOWR st rd adr wdt s).top.reg_wen = 0 ∧
    (IOWR st rd adr wdt s).top.reg_ren = s.top.reg_ren ∧
    (IORD st rd a2 s).2.top.reg_ren = 0 ∧
    (IORD st rd a2 s).2.top.reg_wen = s.top.reg_wen ∧
    (IORD st rd a2 s).2.top.reg_wdt = s.top.reg_wdt ∧
    (clk_tgl st rd s).top.reg_wen = s.top.reg_wen ∧
    (clk_tgl st rd s).top.reg_ren = s.top.reg_ren :=
  ⟨rfl, rfl, rfl, rfl, rfl, rfl, rfl⟩

/-- C1: evaluation of `main`'s register-access trace (against a device
whose read-data output is 0, so the poll exits on its first read).
The first access writes the configuration value `0x01ff0f84` to word
offset 2 — not to the CONFIG register, whose offset per the register
map is `SOCKIT_SPI_CFG_REG = 3`; the remaining accesses (DATA write
`0x0b5a0000`, CTRL write `0x003f1012`, CTRL poll, DATA read) follow in
the claimed order at the claimed offsets.  This exhibits the
divergence between `main` and the claim's CONFIG-at-offset-3 address. -/
theorem c1_config_write_misses_cfg_offset :
    mainEvents unitStep unitRdt () 1 =
      some ([{ isWrite := true, adr := 2, data := 0x01ff0f84, rstCpu := 1 },
             { isWrite := true, adr := 0, data := 0x0b5a0000, rstCpu := 1 },
             { isWrite := true, adr := 1, data := 0x003f1012, rstCpu := 1 },
             { isWrite := false, adr := 1, data := 0, rstCpu := 1 },
             { isWrite := false, adr := 0, data := 0, rstCpu := 1 }], 0) ∧
    SOCKIT_SPI_CFG_REG = 3 ∧ (2 : Nat) ≠ SOCKIT_SPI_CFG_REG :=
  ⟨rfl, rfl, by decide⟩

/-- C3 counterexample: in the concrete run of `main` (device answering
0, one poll read) the number of writes to the CONFIG register offset
is 0, refuting the claim that exactly one CONFIG write precedes the
DATA write — the configuration value is written to offset 2 instead. -/
theorem c3_no_config_write_counterexample :
    (mainEvents unitStep unitRdt () 1).map (fun p => p.1.countP (fun e => isCfgWrite e)) =
      some 0 :=
  rfl

/-- Helper: structure of a successful poll — the trace splits into a
possibly empty prefix of busy reads followed by one final clear read;
every event is a read of offset 1 carrying the unchanged `rst_cpu`,
and the loop leaves `rst_cpu` unchanged. -/
theorem pollLoop_spec (T : Type) (st : T → TopSig → T) (rd : T → Nat) :
    ∀ (fuel : Nat) (s : TbState T) (evs : List BusEvent) (s2 : TbState T),
      pollLoop st rd fuel s = some (evs, s2) →
      (∃ pre last, evs = pre ++ [last] ∧
        last.data &&& 0xc000 = 0 ∧
        (∀ e ∈ pre, e.data &&& 0xc000 ≠ 0)) ∧
      (∀ e ∈ evs, e.isWrite = false ∧ e.adr = 1 ∧ e.rstCpu = s.top.rst_cpu) ∧
      s2.top.rst_cpu = s.top.rst_cpu := by
  intro fuel
  induction fuel with
  | zero =>
    intro s evs s2 h
    simp [pollLoop] at h
  | succ m ih =>
    intro s evs s2 h
    rw [pollLoop] at h
    by_cases hc : (IORD st rd 1 s).1 &&& 0xc000 = 0
    · rw [if_pos hc] at h
      injection h with h1
      obtain ⟨h2, h3⟩ := Prod.ext_iff.mp h1
      subst h2
      subst h3
      refine ⟨⟨[], _, rfl, hc, by simp⟩, ?_, rfl⟩
      intro e he
      rw [List.mem_singleton] at he
      subst he
      exact ⟨rfl, rfl, rfl⟩
    · rw [if_neg hc] at h
      cases hq : pollLoop st rd m (IORD st rd 1 s).2 with
      | none => rw [hq] at h; cases h
      | some q =>
        rw [hq] at h
        injection h with h1
        obtain ⟨h2, h3⟩ := Prod.ext_iff.mp h1
        subst h2
        subst h3
        obtain ⟨⟨pre, last, hsplit, hlast, hpre⟩, hmem, hrst⟩ :=
          ih (IORD st rd 1 s).2 q.1 q.2 hq
        refine ⟨⟨{ isWrite := false, adr := 1, data := (IORD st rd 1 s).1,
                   rstCpu := (IORD st rd 1 s).2.top.rst_cpu } :: pre, last,
                 ?_, hlast, ?_⟩, ?_, hrst⟩
        · simp [hsplit]
        · intro e he
          rcases List.mem_cons.mp he with he | he
          · subst he; exact hc
          · exact hpre e he
        · intro e he
          rcases List.mem_cons.mp he with he | he
          · subst he; exact ⟨rfl, rfl, rfl⟩
          · exact hmem e he

/-- C3 (amended): in the transaction driven by `main`, exactly one
configuration write — issued at word offset 2, not at the CONFIG
offset 3 — precedes the DATA write; the DATA write precedes the
CONTROL (start) write; the CONTROL write is followed by one or more
CTRL/STAT reads; and the final DATA read is issued only after a
CTRL/STAT read has returned a value whose bitwise AND with `0xc000`
equals 0 — every earlier poll read returned a nonzero masked value,
and the DATA register is never read during the busy poll. -/
theorem c3_protocol_order (T : Type) (st : T → TopSig → T) (rd : T → Nat)
    (d0 : T) (fuel : Nat) (evs : List BusEvent) (r : Nat) (sf : TbState T)
    (h : mainRun st rd d0 fuel = some (evs, r, sf)) :
    ∃ polls last rc0 rc1 rc2 rc3,
      evs = { isWrite := true, adr := 2, data := 0x01ff0f84, rstCpu := rc0 } ::
            { isWrite := true, adr := SOCKIT_SPI_DAT_REG, data := 0x0b5a0000, rstCpu := rc1 } ::
            { isWrite := true, adr := SOCKIT_SPI_CTL_REG, data := 0x003f1012, rstCpu := rc2 } ::
            (polls ++ [last] ++
              [{ isWrite := false, adr := SOCKIT_SPI_DAT_REG, data := r, rstCpu := rc3 }]) ∧
      last.isWrite = false ∧ last.adr = SOCKIT_SPI_CTL_REG ∧ last.data &&& 0xc000 = 0 ∧
      (∀ e ∈ polls, e.isWrite = false ∧ e.adr = SOCKIT_SPI_CTL_REG ∧ e.data &&& 0xc000 ≠ 0) := by
  rw [mainRun] at h
  cases hq : pollLoop st rd fuel
      (IOWR st rd 1 0x003f1012 (IOWR st rd 0 0x0b5a0000
        (IOWR st rd 2 0x01ff0f84 (mainPreAccess st rd d0)))) with
  | none => rw [hq] at h; cases h
  | some q =>
    rw [hq] at h
    obtain ⟨⟨pre, last, hsplit, hlast, hpreNe⟩, hmem, _⟩ :=
      pollLoop_spec T st rd fuel _ q.1 q.2 hq
    simp only [Option.some.injEq, Prod.mk.injEq] at h
    obtain ⟨h2, h3, h4⟩ := h
    subst h2
    subst h3
    refine ⟨pre, last,
      (IOWR st rd 2 0x01ff0f84 (mainPreAccess st rd d0)).top.rst_cpu,
      (IOWR st rd 0 0x0b5a0000 (IOWR st rd 2 0x01ff0f84 (mainPreAccess st rd d0))).top.rst_cpu,
      (IOWR st rd 1 0x003f1012 (IOWR st rd 0 0x0b5a0000
        (IOWR st rd 2 0x01ff0f84 (mainPreAccess st rd d0)))).top.rst_cpu,
      (IORD st rd 0 q.2).2.top.rst_cpu, ?_, ?_, ?_, hlast, ?_⟩
    · simp [wev, hsplit, SOCKIT_SPI_DAT_REG, SOCKIT_SPI_CTL_REG]
    · exact (hmem last (hsplit ▸ List.mem_append_right pre (List.mem_singleton.mpr rfl))).1
    · exact (hmem last (hsplit ▸ List.mem_append_right pre (List.mem_singleton.mpr rfl))).2.1
    · intro e he
      have hin : e ∈ q.1 := hsplit ▸ List.mem_append_left [last] he
      exact ⟨(hmem e hin).1, (hmem e hin).2.1, hpreNe e he⟩

/-- Witness for C3: the amended protocol-order theorem applied to the
concrete run of `main` against the trivial device (one poll read). -/
theorem c3_protocol_order_witness :
    ∃ polls last rc0 rc1 rc2 rc3,
      ([{ isWrite := true, adr := 2, data := 0x01ff0f84, rstCpu := 1 },
        { isWrite := true, adr := 0, data := 0x0b5a0000, rstCpu := 1 },
        { isWrite := true, adr := 1, data := 0x003f1012, rstCpu := 1 },
        { isWrite := false, adr := 1, data := 0, rstCpu := 1 },
        { isWrite := false, adr := 0, data := 0, rstCpu := 1 }] : List BusEvent) =
      { isWrite := true, adr := 2, data := 0x01ff0f84, rstCpu := rc0 } ::
      { isWrite := true, adr := SOCKIT_SPI_DAT_REG, data := 0x0b5a0000, rstCpu := rc1 } ::
      { isWrite := true, adr := SOCKIT_SPI_CTL_REG, data := 0x003f1012, rstCpu := rc2 } ::
      (polls ++ [last] ++
        [{ isWrite := false, adr := SOCKIT_SPI_DAT_REG, data := 0, rstCpu := rc3 }]) ∧
      last.isWrite = false ∧ last.adr = SOCKIT_SPI_CTL_REG ∧ last.data &&& 0xc000 = 0 ∧
      (∀ e ∈ polls, e.isWrite = false ∧ e.adr = SOCKIT_SPI_CTL_REG ∧ e.data &&& 0xc000 ≠ 0) :=
  c3_protocol_order Unit unitStep unitRdt () 1
    [{ isWrite := true, adr := 2, data := 0x01ff0f84, rstCpu := 1 },
     { isWrite := true, adr := 0, data := 0x0b5a0000, rstCpu := 1 },
     { isWrite := true, adr := 1, data := 0x003f1012, rstCpu := 1 },
     { isWrite := false, adr := 1, data := 0, rstCpu := 1 },
     { isWrite := false, adr := 0, data := 0, rstCpu := 1 }] 0 _ rfl

/-- C8: the CPU-domain reset input is never released by the harness —
`main` sets `rst_cpu` to 1 during initialisation; the reset-removal
step assigns 0 only to `rst` and `rst_spi`, leaving `rst_cpu` at 1;
and in any completed run every register access happens with
`rst_cpu = 1`, which still holds in the final state. -/
theorem c8_rst_cpu_never_released (T : Type) (st : T → TopSig → T) (rd : T → Nat)
    (d0 : T) (fuel : Nat) (evs : List BusEvent) (r : Nat) (sf : TbState T)
    (h : mainRun st rd d0 fuel = some (evs, r, sf)) :
    (mainInit d0 : TbState T).top.rst_cpu = 1 ∧
    (mainResetRemoved st rd d0).top.rst = 0 ∧
    (mainResetRemoved st rd d0).top.rst_spi = 0 ∧
    (mainResetRemoved st rd d0).top.rst_cpu = 1 ∧
    (∀ e ∈ evs, e.rstCpu = 1) ∧
    sf.top.rst_cpu = 1 := by
  rw [mainRun] at h
  cases hq : pollLoop st rd fuel
      (IOWR st rd 1 0x003f1012 (IOWR st rd 0 0x0b5a0000
        (IOWR st rd 2 0x01ff0f84 (mainPreAccess st rd d0)))) with
  | none => rw [hq] at h; cases h
  | some q =>
    rw [hq] at h
    obtain ⟨_, hmem, hrst⟩ := pollLoop_spec T st rd fuel _ q.1 q.2 hq
    simp only [Option.some.injEq, Prod.mk.injEq] at h
    obtain ⟨h2, _, h4⟩ := h
    subst h2
    subst h4
    refine ⟨rfl, rfl, rfl, rfl, ?_, ?_⟩
    · intro e he
      rcases List.mem_cons.mp he with he | he
      · subst he; rfl
      rcases List.mem_cons.mp he with he | he
      · subst he; rfl
      rcases List.mem_cons.mp he with he | he
      · subst he; rfl
      rcases List.mem_append.mp he with he | he
      · exact (hmem e he).2.2
      · rw [List.mem_singleton.mp he]
        exact hrst
    · exact hrst

/-- Witness for C8: the reset-invariant theorem applied to the
concrete run of `main` against the trivial device. -/
theorem c8_rst_cpu_never_released_witness :
    (mainInit () : TbState Unit).top.rst_cpu = 1 ∧
    (mainResetRemoved unitStep unitRdt ()).top.rst = 0 ∧
    (mainResetRemoved unitStep unitRdt ()).top.rst_spi = 0 ∧
    (mainResetRemoved unitStep unitRdt ()).top.rst_cpu = 1 ∧
    (∀ e ∈ ([{ isWrite := true, adr := 2, data := 0x01ff0f84, rstCpu := 1 },
              { isWrite := true, adr := 0, data := 0x0b5a0000, rstCpu := 1 },
              { isWrite := true, adr := 1, data := 0x003f1012, rstCpu := 1 },
              { isWrite := false, adr := 1, data := 0, rstCpu := 1 },
              { isWrite := false, adr := 0, data := 0, rstCpu := 1 }] : List BusEvent),
      e.rstCpu = 1) := by
  have h := c8_rst_cpu_never_released Unit unitStep unitRdt () 1
    [{ isWrite := true, adr := 2, data := 0x01ff0f84, rstCpu := 1 },
     { isWrite := true, adr := 0, data := 0x0b5a0000, rstCpu := 1 },
     { isWrite := true, adr := 1, data := 0x003f1012, rstCpu := 1 },
     { isWrite := false, adr := 1, data := 0, rstCpu := 1 },
     { isWrite := false, adr := 0, data := 0, rstCpu := 1 }] 0 _ rfl
  exact ⟨h.1, h.2.1, h.2.2.1, h.2.2.2.1, h.2.2.2.2.1⟩

/-- C6: on the spec-modelled device, accesses to the reserved word
offset 2 are safe no-ops — a clock cycle carrying a write of any value
to address 2 produces exactly the same device state (DATA, engine
phase and hence CTRL/STAT, CONFIG) as the same cycle with no write at
all, and an `IORD` of address 2 returns 0.  Both operations are total
functions, so neither can crash. -/
theorem c6_reserved_offset_noop
    (dec : Nat → Option (WireMode × Nat × Nat)) (ind : Nat)
    (s : SpiDev) (top : TopSig) (v : Nat) (ts : TbState SpiDev) :
    devStep dec ind s { top with reg_wen := 1, reg_adr := 2, reg_wdt := v } =
      devStep dec ind s { top with reg_wen := 0, reg_adr := 2 } ∧
    (IORD (devStep dec ind) devRdt 2 ts).1 = 0 := by
  constructor
  · simp [devStep, devRising]
  · simp [IORD, clk_tgl, devStep, devRising, devRdt, lowPhaseTop, highPhaseTop]

/-- Helper: one busy-poll read against the spec-modelled device — it
returns the status after the clock edge, advances the engine by one
step and leaves the write strobe down. -/
theorem IORD_ctl_devStep (dec : Nat → Option (WireMode × Nat × Nat)) (ind : Nat)
    (s : TbState SpiDev) (hw : s.top.reg_wen = 0) :
    (IORD (devStep dec ind) devRdt 1 s).1 = statusOf (engineStep s.dev.phase) ∧
    (IORD (devStep dec ind) devRdt 1 s).2.dev.phase = engineStep s.dev.phase ∧
    (IORD (devStep dec ind) devRdt 1 s).2.top.reg_wen = 0 := by
  refine ⟨?_, ?_, ?_⟩ <;>
    simp [IORD, clk_tgl, devStep, devRising, devRdt, lowPhaseTop, highPhaseTop, hw]

/-- Helper: from a `shifting r` engine state with the write strobe
down, the busy-poll loop succeeds with any fuel of at least `r + 1`
reads. -/
theorem pollLoop_devStep_terminates (dec : Nat → Option (WireMode × Nat × Nat)) (ind : Nat) :
    ∀ (r : Nat) (s : TbState SpiDev), s.dev.phase = Phase.shifting r →
      s.top.reg_wen = 0 → ∀ fuel, r + 1 ≤ fuel →
      (pollLoop (devStep dec ind) devRdt fuel s).isSome = true := by
  intro r
  induction r with
  | zero =>
    intro s hp hw fuel hf
    obtain ⟨f, rfl⟩ : ∃ f, fuel = f + 1 := ⟨fuel - 1, by omega⟩
    have h1 := IORD_ctl_devStep dec ind s hw
    rw [pollLoop]
    rw [h1.1, hp]
    simp [engineStep, statusOf, busyPhase]
  | succ k ih =>
    intro s hp hw fuel hf
    obtain ⟨f, rfl⟩ : ∃ f, fuel = f + 1 := ⟨fuel - 1, by omega⟩
    have h1 := IORD_ctl_devStep dec ind s hw
    rw [pollLoop]
    rw [h1.1, hp]
    have hbusy : statusOf (engineStep (Phase.shifting (k + 1))) &&& 0xc000 ≠ 0 := by
      simp [engineStep, statusOf, busyPhase]
    rw [if_neg hbusy]
    have hrec := ih (IORD (devStep dec ind) devRdt 1 s).2
      (by rw [h1.2.1, hp]; rfl) h1.2.2 f (by omega)
    cases hq : pollLoop (devStep dec ind) devRdt f (IORD (devStep dec ind) devRdt 1 s).2 with
    | none => rw [hq] at hrec; cases hrec
    | some q => rfl

/-- Helper: a CONTROL write whose word decodes to a start strobe, done
while the engine is idle, arms a transfer of
`(out-count + in-count) × cycles-per-byte(wire-mode)` cycles and
returns with the write strobe down. -/
theorem IOWR_ctl_start (dec : Nat → Option (WireMode × Nat × Nat)) (ind : Nat)
    (w : Nat) (m : WireMode) (oc ic : Nat) (s : TbState SpiDev)
    (hp : s.dev.phase = Phase.idle) (hd : dec w = some (m, oc, ic)) :
    (IOWR (devStep dec ind) devRdt 1 w s).dev.phase =
      Phase.shifting ((oc + ic) * cyclesPerByte m) ∧
    (IOWR (devStep dec ind) devRdt 1 w s).top.reg_wen = 0 := by
  constructor
  · simp [IOWR, clk_tgl, devStep, devRising, lowPhaseTop, highPhaseTop, hp, hd]
  · rfl

/-- C7: every started transaction completes in bounded time on the
spec-modelled device — for every decoded (wire-mode, out-count,
in-count) triple, after the CONTROL write that sets the start strobe
the busy-poll loop of `main` terminates within
`(out-count + in-count) × cycles-per-byte(wire-mode) + 1` reads (one
clock cycle each), and its final CTRL/STAT read returns a value whose
bitwise AND with `0xc000` is 0, every earlier read returning a nonzero
masked value. -/
theorem c7_transaction_bounded (dec : Nat → Option (WireMode × Nat × Nat)) (ind : Nat)
    (w : Nat) (m : WireMode) (oc ic : Nat) (s : TbState SpiDev)
    (hp : s.dev.phase = Phase.idle) (hd : dec w = some (m, oc, ic)) :
    ∃ evs s2,
      pollLoop (devStep dec ind) devRdt ((oc + ic) * cyclesPerByte m + 1)
        (IOWR (devStep dec ind) devRdt 1 w s) = some (evs, s2) ∧
      ∃ pre last, evs = pre ++ [last] ∧ last.data &&& 0xc000 = 0 ∧
        (∀ e ∈ pre, e.data &&& 0xc000 ≠ 0) := by
  have hstart := IOWR_ctl_start dec ind w m oc ic s hp hd
  have hterm := pollLoop_devStep_terminates dec ind ((oc + ic) * cyclesPerByte m)
    (IOWR (devStep dec ind) devRdt 1 w s) hstart.1 hstart.2
    ((oc + ic) * cyclesPerByte m + 1) (by omega)
  cases hq : pollLoop (devStep dec ind) devRdt ((oc + ic) * cyclesPerByte m + 1)
      (IOWR (devStep dec ind) devRdt 1 w s) with
  | none => rw [hq] at hterm; cases hterm
  | some q =>
    obtain ⟨⟨pre, last, hsplit, hlast, hpre⟩, _, _⟩ :=
      pollLoop_spec SpiDev (devStep dec ind) devRdt _ _ q.1 q.2 hq
    exact ⟨q.1, q.2, rfl, pre, last, hsplit, hlast, hpre⟩

/-- Witness for C7: the bounded-completion theorem applied to a
concrete idle device state and a decoder that starts a zero-count
single-wire transaction, so the poll succeeds within one read. -/
theorem c7_transaction_bounded_witness :
    tb0.dev.phase = Phase.idle ∧
    (∃ evs s2,
      pollLoop (devStep decTrivial 0) devRdt ((0 + 0) * cyclesPerByte WireMode.single + 1)
        (IOWR (devStep decTrivial 0) devRdt 1 0 tb0) = some (evs, s2) ∧
      ∃ pre last, evs = pre ++ [last] ∧ last.data &&& 0xc000 = 0 ∧
        (∀ e ∈ pre, e.data &&& 0xc000 ≠ 0)) :=
  ⟨rfl, c7_transaction_bounded decTrivial 0 0 WireMode.single 0 0 tb0 rfl rfl⟩
